import Mathlib

/-!
Shallow embedding of the OpenMetadata ingestion authentication providers
(src/ingestion/src/metadata/ingestion/ometa/openmetadata_rest.py).

Each provider class is embedded as pure functions over an explicit provider
state (the mutable fields generated_auth_token and expiry).  Network effects
are made explicit: the HTTP response a token endpoint would produce is passed
in as data, and the request a provider would send is computed as data, so the
theorems can quantify over endpoint behaviour.  Python exceptions are an
error outcome; a call to sys.exit is a distinct process-termination outcome.
-/

set_option autoImplicit false

/-- Python runtime values that flow through the providers: None, strings,
integers, and the absolute datetime the Google SDK stores as an expiry. -/
inductive PyVal where
  | none
  | str (s : String)
  | int (n : Int)
  | time (t : Int)
  deriving DecidableEq, Repr

/-- Errors a provider can raise to its caller: APIError (message plus optional
HTTP status, as in metadata.ingestion.ometa.client.APIError), Python KeyError
from a dict lookup, AttributeError from a missing config attribute, the
FileNotFoundError from loading key material, and a JSON decode error. -/
inductive AuthError where
  | apiError (message : String) (httpError : Option Nat)
  | keyError (key : String)
  | attrError (attr : String)
  | fileNotFound (path : String)
  | jsonDecodeError
  deriving DecidableEq, Repr

/-- The message text carried by an error, as the caller would see it
(str of the raised Python exception). -/
def errMessage : AuthError → String
  | AuthError.apiError m _ => m
  | AuthError.keyError k => k
  | AuthError.attrError a => a
  | AuthError.fileNotFound p => p
  | AuthError.jsonDecodeError => "Expecting value"

/-- Outcome of running a provider method: a normal return, a raised
(recoverable) exception, or process termination via sys.exit with an
optional exit code. -/
inductive AuthOutcome (α : Type) where
  | ok (a : α)
  | error (e : AuthError)
  | exit (code : Option Nat)
  deriving DecidableEq, Repr

/-- The mutable fields shared by every provider instance:
self.generated_auth_token and self.expiry, both initially None. -/
structure ProviderState where
  generated_auth_token : PyVal
  expiry : PyVal
  deriving DecidableEq, Repr

/-- Provider state right after __init__: both fields are None. -/
def initState : ProviderState :=
  { generated_auth_token := PyVal.none, expiry := PyVal.none }

/-- An HTTP response from a token endpoint: status code, raw body text, and
the result of JSON-parsing the body (Option.none when the body is not valid
JSON, in which case json.loads raises). -/
structure HttpResponse where
  status : Nat
  text : String
  json : Option (List (String × PyVal))
  deriving DecidableEq, Repr

/-- requests.Response.ok: true exactly when the status code is below 400. -/
def respOk (r : HttpResponse) : Bool :=
  r.status < 400

/-- Python dict.get: the value at the key, or None when absent. -/
def dictGet (j : List (String × PyVal)) (k : String) : PyVal :=
  match j.lookup k with
  | Option.some v => v
  | Option.none => PyVal.none

/-- Python dict subscript d[k]: the value at the key, or a raised KeyError. -/
def dictItem (j : List (String × PyVal)) (k : String) : Except AuthError PyVal :=
  match j.lookup k with
  | Option.some v => Except.ok v
  | Option.none => Except.error (AuthError.keyError k)

/-- Python getattr on a configuration object, over its attribute list:
the value at the name, or a raised AttributeError. -/
def attrGet (attrs : List (String × PyVal)) (name : String) : Except AuthError PyVal :=
  match attrs.lookup name with
  | Option.some v => Except.ok v
  | Option.none => Except.error (AuthError.attrError name)

/-- Whether the pattern is a leading segment of the character list. -/
def leadsWith : List Char → List Char → Bool
  | [], _ => true
  | _ :: _, [] => false
  | a :: as, b :: bs => a == b && leadsWith as bs

/-- Whether the pattern occurs contiguously inside the character list. -/
def hasSubList (pat : List Char) : List Char → Bool
  | [] => leadsWith pat []
  | c :: rest => leadsWith pat (c :: rest) || hasSubList pat rest

/-- Whether the string pat occurs as a contiguous substring of s, the check a
test would run on an error message. -/
def strContainsSub (s pat : String) : Bool :=
  hasSubList pat.toList s.toList

/-- Every get_access_token body is literally: call auth_token, then return
(self.generated_auth_token, self.expiry).  This wrapper turns an auth_token
outcome and final state into that returned pair; raised errors and process
exits pass through unchanged. -/
def wrapGetAccessToken (r : AuthOutcome Unit × ProviderState) :
    AuthOutcome (PyVal × PyVal) × ProviderState :=
  match r with
  | (AuthOutcome.ok _, st) => (AuthOutcome.ok (st.generated_auth_token, st.expiry), st)
  | (AuthOutcome.error e, st) => (AuthOutcome.error e, st)
  | (AuthOutcome.exit c, st) => (AuthOutcome.exit c, st)

/-- NoOpAuthenticationProvider.get_access_token: returns the literal pair
("no_token", None) for any configuration.  Its type shows it consumes no
response and touches no state: the provider performs no network activity. -/
def noOpGetAccessToken {α : Type} (_config : α) : PyVal × PyVal :=
  (PyVal.str "no_token", PyVal.none)

/-- CustomOidcSSOConfig: the security configuration of the generic OIDC
provider. -/
structure CustomOidcSSOConfig where
  clientId : String
  secretKey : String
  tokenEndpoint : String
  deriving DecidableEq, Repr

/-- A requests.post call as data: the target url and the form data dict. -/
structure OidcRequest where
  url : String
  data : List (String × String)
  deriving DecidableEq, Repr

/-- The request CustomOIDCAuthenticationProvider.auth_token sends:
requests.post to the configured tokenEndpoint with form data
grant_type=client_credentials, client_id, client_secret. -/
def customOidcBuildRequest (sc : CustomOidcSSOConfig) : OidcRequest :=
  { url := sc.tokenEndpoint
    data := [("grant_type", "client_credentials"),
             ("client_id", sc.clientId),
             ("client_secret", sc.secretKey)] }

/-- CustomOIDCAuthenticationProvider.auth_token: posts the client-credentials
form to the token endpoint; on response.ok reads access_token then expires_in
via dict subscript (KeyError when absent, with the token field already
assigned when only expires_in is missing); otherwise raises APIError carrying
the response text as message and the status code. -/
def customOidcAuthToken (sc : CustomOidcSSOConfig) (st : ProviderState)
    (resp : HttpResponse) : AuthOutcome Unit × ProviderState :=
  let _request := customOidcBuildRequest sc
  if respOk resp then
    match resp.json with
    | Option.none => (AuthOutcome.error AuthError.jsonDecodeError, st)
    | Option.some response_json =>
      match dictItem response_json "access_token" with
      | Except.error e => (AuthOutcome.error e, st)
      | Except.ok tok =>
        match dictItem response_json "expires_in" with
        | Except.error e =>
            (AuthOutcome.error e, { st with generated_auth_token := tok })
        | Except.ok exp_in =>
            (AuthOutcome.ok (),
             { st with generated_auth_token := tok, expiry := exp_in })
  else
    (AuthOutcome.error (AuthError.apiError resp.text (Option.some resp.status)), st)

/-- CustomOIDCAuthenticationProvider.get_access_token. -/
def customOidcGetAccessToken (sc : CustomOidcSSOConfig) (st : ProviderState)
    (resp : HttpResponse) : AuthOutcome (PyVal × PyVal) × ProviderState :=
  wrapGetAccessToken (customOidcAuthToken sc st resp)

/-- A successful token-endpoint response whose JSON body carries the given
access_token and expires_in. -/
def respWith (tok : String) (n : Int) : HttpResponse :=
  { status := 200
    text := "\x7b\"access_token\":\"" ++ tok ++ "\",\"expires_in\":" ++ toString n ++ "\x7d"
    json := Option.some [("access_token", PyVal.str tok), ("expires_in", PyVal.int n)] }

/-- The HTTP 400 response with body containing invalid_client. -/
def resp400 : HttpResponse :=
  { status := 400
    text := "\x7b\"error\":\"invalid_client\"\x7d"
    json := Option.some [("error", PyVal.str "invalid_client")] }

/-- GoogleSSOConfig: secretKey is the path of the service-account key file,
audience the target audience of the identity token. -/
structure GoogleSSOConfig where
  secretKey : String
  audience : String
  deriving DecidableEq, Repr

/-- Modelled from the spec: the Google auth SDK calls used by
GoogleAuthenticationProvider.auth_token are not part of the sources.  Per the
spec, the provider loads the private-key material referenced by the
configuration (failure to read it is an error reported to the caller, before
any network call), exchanges the signed assertion through the token-refresh
call, and on success the credentials hold the access token and an absolute
expiry equivalent to now plus the granted expires_in seconds.  The filesystem
is the function fs from paths to file contents; the endpoint response is
passed as data. -/
def googleSdkExchange (fs : String → Option String) (path : String)
    (now : Int) (resp : HttpResponse) : Except AuthError (String × Int) :=
  match fs path with
  | Option.none => Except.error (AuthError.fileNotFound path)
  | Option.some _key =>
    if respOk resp then
      match resp.json with
      | Option.some j =>
        match j.lookup "access_token", j.lookup "expires_in" with
        | Option.some (PyVal.str tok), Option.some (PyVal.int n) =>
            Except.ok (tok, now + n)
        | _, _ => Except.error AuthError.jsonDecodeError
      | Option.none => Except.error AuthError.jsonDecodeError
    else
      Except.error (AuthError.apiError resp.text (Option.some resp.status))

/-- GoogleAuthenticationProvider.auth_token: builds credentials from the
service-account file at securityConfig.secretKey, refreshes them and stores
credentials.token and credentials.expiry.  Every failure propagates to the
caller as a raised error: the body has no exception handler. -/
def googleAuthToken (sc : GoogleSSOConfig) (st : ProviderState)
    (fs : String → Option String) (now : Int) (resp : HttpResponse) :
    AuthOutcome Unit × ProviderState :=
  match googleSdkExchange fs sc.secretKey now resp with
  | Except.error e => (AuthOutcome.error e, st)
  | Except.ok (tok, expiry_time) =>
      (AuthOutcome.ok (),
       { st with generated_auth_token := PyVal.str tok,
                 expiry := PyVal.time expiry_time })

/-- GoogleAuthenticationProvider.get_access_token. -/
def googleGetAccessToken (sc : GoogleSSOConfig) (st : ProviderState)
    (fs : String → Option String) (now : Int) (resp : HttpResponse) :
    AuthOutcome (PyVal × PyVal) × ProviderState :=
  wrapGetAccessToken (googleAuthToken sc st fs now resp)

/-- OktaSSOConfig: the security configuration of the Okta provider. -/
structure OktaSSOConfig where
  clientId : String
  orgURL : String
  privateKey : String
  scopes : List String
  deriving DecidableEq, Repr

/-- JWT.ONE_HOUR from the okta SDK: one hour in seconds, matching the spec
claim exp = now plus 1h. -/
def ONE_HOUR : Int := 3600

/-- The claims dict OktaAuthenticationProvider.auth_token builds for the JWT
assertion. -/
structure OktaClaims where
  sub : String
  iat : Int
  exp : Int
  iss : String
  aud : String
  jti : String
  deriving DecidableEq, Repr

/-- The claims dict literal of OktaAuthenticationProvider.auth_token:
sub and iss are the configured clientId, aud the orgURL, iat the current
time, exp iat plus JWT.ONE_HOUR, jti the freshly generated uuid4 string. -/
def oktaBuildClaims (sc : OktaSSOConfig) (issued_time : Int)
    (generated_jwt_id : String) : OktaClaims :=
  { sub := sc.clientId
    iat := issued_time
    exp := issued_time + ONE_HOUR
    iss := sc.clientId
    aud := sc.orgURL
    jti := generated_jwt_id }

/-- OktaAuthenticationProvider.auth_token.  The whole body sits in a
try/except whose handler logs and calls sys.exit() with no argument, so any
failure terminates the process instead of raising to the caller.  Inputs:
keyLoad is the outcome of JWT.get_PEM_JWK on the configured private key;
issued_time and generated_jwt_id are the sampled time.time() and uuid4;
fireErr is the err slot of the fire_request result (Option.some raises
APIError inside the try, which the handler then converts to sys.exit);
resJson is the json.loads parse of the response body (Option.none raises,
again reaching the handler).  On success the token and expiry are read with
dict.get, so a missing field silently stores None. -/
def oktaAuthToken (sc : OktaSSOConfig) (st : ProviderState)
    (keyLoad : Except Unit Unit) (issued_time : Int) (generated_jwt_id : String)
    (fireErr : Option String) (resJson : Option (List (String × PyVal))) :
    AuthOutcome Unit × ProviderState :=
  match keyLoad with
  | Except.error _ => (AuthOutcome.exit Option.none, st)
  | Except.ok _ =>
    let _claims := oktaBuildClaims sc issued_time generated_jwt_id
    match fireErr with
    | Option.some _err => (AuthOutcome.exit Option.none, st)
    | Option.none =>
      match resJson with
      | Option.none => (AuthOutcome.exit Option.none, st)
      | Option.some response_dict =>
          (AuthOutcome.ok (),
           { st with generated_auth_token := dictGet response_dict "access_token",
                     expiry := dictGet response_dict "expires_in" })

/-- OktaAuthenticationProvider.get_access_token: asyncio.run(auth_token())
then return the stored pair; a sys.exit inside auth_token propagates and
terminates the process. -/
def oktaGetAccessToken (sc : OktaSSOConfig) (st : ProviderState)
    (keyLoad : Except Unit Unit) (issued_time : Int) (generated_jwt_id : String)
    (fireErr : Option String) (resJson : Option (List (String × PyVal))) :
    AuthOutcome (PyVal × PyVal) × ProviderState :=
  wrapGetAccessToken (oktaAuthToken sc st keyLoad issued_time generated_jwt_id fireErr resJson)

/-- Auth0SSOConfig: the security configuration of the Auth0 provider. -/
structure Auth0SSOConfig where
  clientId : String
  secretKey : String
  domain : String
  deriving DecidableEq, Repr

/-- A raw http.client request as data: connection host, method, path, body
payload and headers. -/
structure Auth0Request where
  host : String
  method : String
  path : String
  payload : String
  headers : List (String × String)
  deriving DecidableEq, Repr

/-- The form payload f-string of Auth0AuthenticationProvider.auth_token. -/
def auth0Payload (sc : Auth0SSOConfig) : String :=
  "grant_type=client_credentials&client_id=" ++ sc.clientId ++
    "&client_secret=" ++ sc.secretKey ++
    "&audience=https://" ++ sc.domain ++ "/api/v2/"

/-- The request Auth0AuthenticationProvider.auth_token sends: an HTTPS
connection to securityConfig.domain, POST to the path /<domain>/oauth/token
with the client-credentials form payload and a form-urlencoded content-type
header. -/
def auth0BuildRequest (sc : Auth0SSOConfig) : Auth0Request :=
  { host := sc.domain
    method := "POST"
    path := "/" ++ sc.domain ++ "/oauth/token"
    payload := auth0Payload sc
    headers := [("content-type", "application/x-www-form-urlencoded")] }

/-- Auth0AuthenticationProvider.auth_token: sends the request, reads the
response body and JSON-parses it, then reads access_token and expires_in by
dict subscript.  The HTTP status is never inspected, and there is no
exception handler: a missing field raises KeyError to the caller (with the
token field already assigned when only expires_in is missing). -/
def auth0AuthToken (sc : Auth0SSOConfig) (st : ProviderState)
    (resp : HttpResponse) : AuthOutcome Unit × ProviderState :=
  let _request := auth0BuildRequest sc
  match resp.json with
  | Option.none => (AuthOutcome.error AuthError.jsonDecodeError, st)
  | Option.some token =>
    match dictItem token "access_token" with
    | Except.error e => (AuthOutcome.error e, st)
    | Except.ok tok =>
      match dictItem token "expires_in" with
      | Except.error e =>
          (AuthOutcome.error e, { st with generated_auth_token := tok })
      | Except.ok exp_in =>
          (AuthOutcome.ok (),
           { st with generated_auth_token := tok, expiry := exp_in })

/-- Auth0AuthenticationProvider.get_access_token. -/
def auth0GetAccessToken (sc : Auth0SSOConfig) (st : ProviderState)
    (resp : HttpResponse) : AuthOutcome (PyVal × PyVal) × ProviderState :=
  wrapGetAccessToken (auth0AuthToken sc st resp)

/-- Modelled from the spec: the generated OpenMetadataServerConfig schema is
not under the sources.  Per the spec, the top-level server configuration owns
the securityConfig, and a standard configuration carries its credentials only
under that securityConfig field; it has no top-level client_id, secret_key,
authority or scopes attributes.  Attribute access is over this list. -/
def standardServerConfigAttrs (securityConfig : PyVal) : List (String × PyVal) :=
  [("securityConfig", securityConfig)]

/-- AzureAuthenticationProvider.auth_token: reads client_id, secret_key,
authority and scopes as attributes of the top-level config object (not of its
securityConfig), builds the msal ConfidentialClientApplication and requests a
token for the scopes; a missing attribute raises AttributeError to the caller
before any token request.  The acquired token dict is then read by subscript
inside a try whose except KeyError handler logs and calls sys.exit(1). -/
def azureAuthToken (configAttrs : List (String × PyVal)) (st : ProviderState)
    (msalToken : List (String × PyVal)) : AuthOutcome Unit × ProviderState :=
  match attrGet configAttrs "client_id" with
  | Except.error e => (AuthOutcome.error e, st)
  | Except.ok _ =>
    match attrGet configAttrs "secret_key" with
    | Except.error e => (AuthOutcome.error e, st)
    | Except.ok _ =>
      match attrGet configAttrs "authority" with
      | Except.error e => (AuthOutcome.error e, st)
      | Except.ok _ =>
        match attrGet configAttrs "scopes" with
        | Except.error e => (AuthOutcome.error e, st)
        | Except.ok _ =>
          match dictItem msalToken "access_token" with
          | Except.error _ => (AuthOutcome.exit (Option.some 1), st)
          | Except.ok tok =>
            match dictItem msalToken "expires_in" with
            | Except.error _ =>
                (AuthOutcome.exit (Option.some 1), { st with generated_auth_token := tok })
            | Except.ok exp_in =>
                (AuthOutcome.ok (),
                 { st with generated_auth_token := tok, expiry := exp_in })

/-- AzureAuthenticationProvider.get_access_token. -/
def azureGetAccessToken (configAttrs : List (String × PyVal)) (st : ProviderState)
    (msalToken : List (String × PyVal)) : AuthOutcome (PyVal × PyVal) × ProviderState :=
  wrapGetAccessToken (azureAuthToken configAttrs st msalToken)

/-- C1: for every authenticated provider, when the token endpoint responds
successfully with body access_token "abc" and expires_in 3600,
get_access_token returns the token string "abc" and an expiry reflecting
3600 seconds: the absolute time now + 3600 for the Google provider, the raw
value 3600 for the Okta, Auth0, Azure and generic OIDC providers. -/
theorem providers_success_return_abc_3600
    (gsc : GoogleSSOConfig) (osc : OktaSSOConfig) (asc : Auth0SSOConfig)
    (csc : CustomOidcSSOConfig) (v1 v2 v3 v4 : PyVal) (key : String)
    (st : ProviderState) (now issued : Int) (jid : String) :
    (googleGetAccessToken gsc st (fun _ => Option.some key) now (respWith "abc" 3600)).fst
        = AuthOutcome.ok (PyVal.str "abc", PyVal.time (now + 3600)) ∧
    (oktaGetAccessToken osc st (Except.ok ()) issued jid Option.none
        (Option.some [("access_token", PyVal.str "abc"), ("expires_in", PyVal.int 3600)])).fst
        = AuthOutcome.ok (PyVal.str "abc", PyVal.int 3600) ∧
    (auth0GetAccessToken asc st (respWith "abc" 3600)).fst
        = AuthOutcome.ok (PyVal.str "abc", PyVal.int 3600) ∧
    (azureGetAccessToken
        [("client_id", v1), ("secret_key", v2), ("authority", v3), ("scopes", v4)]
        st [("access_token", PyVal.str "abc"), ("expires_in", PyVal.int 3600)]).fst
        = AuthOutcome.ok (PyVal.str "abc", PyVal.int 3600) ∧
    (customOidcGetAccessToken csc st (respWith "abc" 3600)).fst
        = AuthOutcome.ok (PyVal.str "abc", PyVal.int 3600) :=
  ⟨rfl, rfl, rfl, rfl, rfl⟩

/-- C4: the no-op provider returns the fixed sentinel pair ("no_token", None)
for any configuration; its embedding consumes no response and no state,
reflecting that it performs no network I/O. -/
theorem noop_returns_sentinel {α : Type} (config : α) :
    noOpGetAccessToken config = (PyVal.str "no_token", PyVal.none) :=
  rfl

/-- C8: the Auth0 provider sends a POST over a raw HTTPS connection to the
configured domain, at the path /<domain>/oauth/token under it, with the exact
client-credentials form body including the audience https://<domain>/api/v2/,
and parses the JSON response body for access_token and expires_in. -/
theorem auth0_request_shape (sc : Auth0SSOConfig) (st : ProviderState)
    (tok : String) (n : Int) :
    (auth0BuildRequest sc).method = "POST" ∧
    (auth0BuildRequest sc).host = sc.domain ∧
    (auth0BuildRequest sc).path = "/" ++ sc.domain ++ "/oauth/token" ∧
    (auth0BuildRequest sc).payload =
      "grant_type=client_credentials&client_id=" ++ sc.clientId ++
        "&client_secret=" ++ sc.secretKey ++
        "&audience=https://" ++ sc.domain ++ "/api/v2/" ∧
    (auth0BuildRequest sc).headers =
      [("content-type", "application/x-www-form-urlencoded")] ∧
    (auth0GetAccessToken sc st (respWith tok n)).fst
        = AuthOutcome.ok (PyVal.str tok, PyVal.int n) :=
  ⟨rfl, rfl, rfl, rfl, rfl, rfl⟩

/-- C10: the Azure provider reads client_id, secret_key, authority and scopes
from the top-level server configuration object; on a standard configuration
carrying credentials only under securityConfig, get_access_token raises
AttributeError for client_id, and it does so for every possible msal token
result, i.e. before any token request is made. -/
theorem azure_reads_toplevel_attrs (securityConfig : PyVal) (st : ProviderState)
    (msalToken : List (String × PyVal)) :
    (azureGetAccessToken (standardServerConfigAttrs securityConfig) st msalToken).fst
        = AuthOutcome.error (AuthError.attrError "client_id") :=
  rfl

/-- C2 counterexample: at a concrete configuration, the Okta provider reacts
to an upstream error during the token exchange by terminating the process
(sys.exit with no code) instead of raising a recoverable error to the
caller. -/
theorem okta_exits_on_upstream_error :
    (oktaGetAccessToken
        { clientId := "cid", orgURL := "https://org.okta.com",
          privateKey := "pem", scopes := ["scope"] }
        initState (Except.ok ()) 0 "uuid-one"
        (Option.some "HTTP 401 Unauthorized") Option.none).fst
      = AuthOutcome.exit Option.none :=
  rfl

/-- C2 amended: acquisition failures surface to the caller as raised typed
errors for the Google, Auth0 and generic OIDC providers; but the Okta
provider terminates the process on any failure during acquisition, and the
Azure provider terminates the process with exit code 1 when the acquired
msal token lacks the access_token field. -/
theorem error_propagation_by_provider :
    (∀ (gsc : GoogleSSOConfig) (st : ProviderState) (key : String) (now : Int)
        (resp : HttpResponse), respOk resp = false →
        (googleGetAccessToken gsc st (fun _ => Option.some key) now resp).fst
          = AuthOutcome.error (AuthError.apiError resp.text (Option.some resp.status))) ∧
    (∀ (asc : Auth0SSOConfig) (st : ProviderState) (resp : HttpResponse),
        resp.json = Option.none →
        (auth0GetAccessToken asc st resp).fst
          = AuthOutcome.error AuthError.jsonDecodeError) ∧
    (∀ (csc : CustomOidcSSOConfig) (st : ProviderState) (resp : HttpResponse),
        respOk resp = false →
        (customOidcGetAccessToken csc st resp).fst
          = AuthOutcome.error (AuthError.apiError resp.text (Option.some resp.status))) ∧
    (∀ (osc : OktaSSOConfig) (st : ProviderState) (issued : Int) (jid e : String)
        (resJson : Option (List (String × PyVal))),
        (oktaGetAccessToken osc st (Except.ok ()) issued jid (Option.some e) resJson).fst
          = AuthOutcome.exit Option.none) ∧
    (∀ (st : ProviderState) (v1 v2 v3 v4 : PyVal) (msalToken : List (String × PyVal)),
        msalToken.lookup "access_token" = Option.none →
        (azureGetAccessToken
            [("client_id", v1), ("secret_key", v2), ("authority", v3), ("scopes", v4)]
            st msalToken).fst = AuthOutcome.exit (Option.some 1)) := by
  refine ⟨?_, ?_, ?_, ?_, ?_⟩
  · intro gsc st key now resp h
    simp [googleGetAccessToken, googleAuthToken, googleSdkExchange, wrapGetAccessToken, h]
  · intro asc st resp h
    simp [auth0GetAccessToken, auth0AuthToken, wrapGetAccessToken, h]
  · intro csc st resp h
    simp [customOidcGetAccessToken, customOidcAuthToken, wrapGetAccessToken, h]
  · intro osc st issued jid e resJson
    rfl
  · intro st v1 v2 v3 v4 msalToken h
    simp [azureGetAccessToken, azureAuthToken, attrGet, dictItem, wrapGetAccessToken,
      List.lookup, h]

/-- Witness for error_propagation_by_provider at concrete inputs: a 400
response makes the Google provider raise an APIError, a response with an
unparseable body makes the Auth0 provider raise a JSON decode error, and an
empty msal token dict makes the Azure provider exit with code 1. -/
theorem error_propagation_by_provider_witness :
    respOk resp400 = false ∧
    (googleGetAccessToken { secretKey := "key.json", audience := "aud" } initState
        (fun _ => Option.some "KEY") 0 resp400).fst
      = AuthOutcome.error (AuthError.apiError resp400.text (Option.some resp400.status)) ∧
    ({ status := 500, text := "boom", json := Option.none } : HttpResponse).json
        = Option.none ∧
    (auth0GetAccessToken { clientId := "c", secretKey := "s", domain := "d" } initState
        { status := 500, text := "boom", json := Option.none }).fst
      = AuthOutcome.error AuthError.jsonDecodeError ∧
    ([] : List (String × PyVal)).lookup "access_token" = Option.none ∧
    (azureGetAccessToken
        [("client_id", PyVal.str "c"), ("secret_key", PyVal.str "s"),
         ("authority", PyVal.str "a"), ("scopes", PyVal.none)]
        initState []).fst = AuthOutcome.exit (Option.some 1) :=
  ⟨rfl,
   error_propagation_by_provider.1 { secretKey := "key.json", audience := "aud" }
     initState "KEY" 0 resp400 rfl,
   rfl,
   error_propagation_by_provider.2.1 { clientId := "c", secretKey := "s", domain := "d" }
     initState { status := 500, text := "boom", json := Option.none } rfl,
   rfl,
   error_propagation_by_provider.2.2.2.2 initState (PyVal.str "c") (PyVal.str "s")
     (PyVal.str "a") PyVal.none [] rfl⟩

/-- C3 counterexample: on HTTP 400 with body containing invalid_client, the
Auth0 provider raises a KeyError for access_token rather than an
upstream-auth error, and the message of that error does not contain
invalid_client, because the provider never inspects the HTTP status. -/
theorem auth0_400_raises_keyerror :
    (auth0GetAccessToken { clientId := "cid", secretKey := "sk", domain := "dom.auth0.com" }
        initState resp400).fst
      = AuthOutcome.error (AuthError.keyError "access_token") ∧
    strContainsSub (errMessage (AuthError.keyError "access_token")) "invalid_client" = false :=
  ⟨rfl, by decide⟩

/-- C3 amended: on HTTP 400 with body invalid_client, only the generic OIDC
provider fails with an API error carrying the response body verbatim (its
message contains invalid_client) together with the status code 400; the
Auth0 provider ignores the status and raises KeyError for access_token; the
Okta provider terminates the process.  No provider returns a token value to
the caller. -/
theorem http400_invalid_client_behavior :
    (∀ (csc : CustomOidcSSOConfig) (st : ProviderState),
        (customOidcGetAccessToken csc st resp400).fst
          = AuthOutcome.error (AuthError.apiError resp400.text (Option.some 400))) ∧
    strContainsSub (errMessage (AuthError.apiError resp400.text (Option.some 400)))
        "invalid_client" = true ∧
    (∀ (asc : Auth0SSOConfig) (st : ProviderState),
        (auth0GetAccessToken asc st resp400).fst
          = AuthOutcome.error (AuthError.keyError "access_token")) ∧
    (∀ (osc : OktaSSOConfig) (st : ProviderState) (issued : Int) (jid : String),
        (oktaGetAccessToken osc st (Except.ok ()) issued jid
            (Option.some "Error 400 invalid_client") Option.none).fst
          = AuthOutcome.exit Option.none) :=
  ⟨fun _ _ => rfl, by decide, fun _ _ => rfl, fun _ _ _ _ => rfl⟩

/-- C5: the JWT assertion claims built by the Okta provider carry sub and iss
equal to the configured clientId, aud equal to the configured organization
URL, exp minus iat exactly 3600 seconds, and the jti values of two calls
whose freshly generated uuid identifiers differ are themselves different. -/
theorem okta_jwt_claims (sc : OktaSSOConfig) (t1 t2 : Int) (j1 j2 : String)
    (hj : j1 ≠ j2) :
    (oktaBuildClaims sc t1 j1).sub = sc.clientId ∧
    (oktaBuildClaims sc t1 j1).iss = sc.clientId ∧
    (oktaBuildClaims sc t1 j1).aud = sc.orgURL ∧
    (oktaBuildClaims sc t1 j1).exp - (oktaBuildClaims sc t1 j1).iat = 3600 ∧
    (oktaBuildClaims sc t1 j1).jti ≠ (oktaBuildClaims sc t2 j2).jti := by
  refine ⟨rfl, rfl, rfl, ?_, ?_⟩
  · show t1 + ONE_HOUR - t1 = 3600
    simp only [ONE_HOUR]
    omega
  · exact hj

/-- Witness for okta_jwt_claims at concrete inputs with distinct uuid
values. -/
theorem okta_jwt_claims_witness :
    ("uuid-one" : String) ≠ "uuid-two" ∧
    (oktaBuildClaims
        { clientId := "cid", orgURL := "https://org.okta.com",
          privateKey := "pem", scopes := ["scope"] } 1000 "uuid-one").jti
      ≠ (oktaBuildClaims
        { clientId := "cid", orgURL := "https://org.okta.com",
          privateKey := "pem", scopes := ["scope"] } 2000 "uuid-two").jti :=
  ⟨by decide,
   (okta_jwt_claims
      { clientId := "cid", orgURL := "https://org.okta.com",
        privateKey := "pem", scopes := ["scope"] } 1000 2000
      "uuid-one" "uuid-two" (by decide)).2.2.2.2⟩

/-- C6 counterexample: at a concrete configuration whose private key fails to
load, the Okta provider terminates the process (sys.exit) instead of failing
with a configuration error raised to the caller. -/
theorem okta_missing_key_exits :
    (oktaGetAccessToken
        { clientId := "cid", orgURL := "https://org.okta.com",
          privateKey := "/no/such/key.pem", scopes := [] }
        initState (Except.error ()) 0 "uuid-x" Option.none Option.none).fst
      = AuthOutcome.exit Option.none :=
  rfl

/-- C6 amended: when the configured private-key material cannot be loaded,
the Google provider fails with a file-not-found error before any network call
(the outcome is the same for every endpoint response); the Okta provider also
fails before any network call (the outcome is the same for every transport
result and response body), but terminates the process rather than raising a
configuration error. -/
theorem missing_key_before_network :
    (∀ (gsc : GoogleSSOConfig) (st : ProviderState) (fs : String → Option String)
        (now : Int) (resp : HttpResponse), fs gsc.secretKey = Option.none →
        (googleGetAccessToken gsc st fs now resp).fst
          = AuthOutcome.error (AuthError.fileNotFound gsc.secretKey)) ∧
    (∀ (osc : OktaSSOConfig) (st : ProviderState) (issued : Int) (jid : String)
        (fireErr : Option String) (resJson : Option (List (String × PyVal))),
        (oktaGetAccessToken osc st (Except.error ()) issued jid fireErr resJson).fst
          = AuthOutcome.exit Option.none) := by
  constructor
  · intro gsc st fs now resp h
    simp [googleGetAccessToken, googleAuthToken, googleSdkExchange, wrapGetAccessToken, h]
  · intro osc st issued jid fireErr resJson
    rfl

/-- Witness for missing_key_before_network: a filesystem without the key file
makes the Google provider raise FileNotFoundError even though the endpoint
would have answered successfully. -/
theorem missing_key_before_network_witness :
    ((fun (_ : String) => (Option.none : Option String)) "absent.json" = Option.none) ∧
    (googleGetAccessToken { secretKey := "absent.json", audience := "aud" } initState
        (fun _ => Option.none) 0 (respWith "abc" 3600)).fst
      = AuthOutcome.error (AuthError.fileNotFound "absent.json") :=
  ⟨rfl,
   missing_key_before_network.1 { secretKey := "absent.json", audience := "aud" }
     initState (fun _ => Option.none) 0 (respWith "abc" 3600) rfl⟩

/-- C7: every get_access_token call performs a full fresh exchange: two
sequential calls, against an endpoint whose response changes between the
calls, return two token and expiry pairs each reflecting the response to its
own call, with no cached value from the first call carried into the second
result, for every provider. -/
theorem fresh_exchange_each_call
    (gsc : GoogleSSOConfig) (osc : OktaSSOConfig) (asc : Auth0SSOConfig)
    (csc : CustomOidcSSOConfig) (v1 v2 v3 v4 : PyVal) (key : String)
    (st : ProviderState) (now1 now2 issued1 issued2 : Int) (jd1 jd2 : String)
    (t1 t2 : String) (n1 n2 : Int) :
    ((customOidcGetAccessToken csc st (respWith t1 n1)).fst
        = AuthOutcome.ok (PyVal.str t1, PyVal.int n1) ∧
      (customOidcGetAccessToken csc
          (customOidcGetAccessToken csc st (respWith t1 n1)).snd (respWith t2 n2)).fst
        = AuthOutcome.ok (PyVal.str t2, PyVal.int n2)) ∧
    ((auth0GetAccessToken asc st (respWith t1 n1)).fst
        = AuthOutcome.ok (PyVal.str t1, PyVal.int n1) ∧
      (auth0GetAccessToken asc
          (auth0GetAccessToken asc st (respWith t1 n1)).snd (respWith t2 n2)).fst
        = AuthOutcome.ok (PyVal.str t2, PyVal.int n2)) ∧
    ((googleGetAccessToken gsc st (fun _ => Option.some key) now1 (respWith t1 n1)).fst
        = AuthOutcome.ok (PyVal.str t1, PyVal.time (now1 + n1)) ∧
      (googleGetAccessToken gsc
          (googleGetAccessToken gsc st (fun _ => Option.some key) now1 (respWith t1 n1)).snd
          (fun _ => Option.some key) now2 (respWith t2 n2)).fst
        = AuthOutcome.ok (PyVal.str t2, PyVal.time (now2 + n2))) ∧
    ((oktaGetAccessToken osc st (Except.ok ()) issued1 jd1 Option.none
          (Option.some [("access_token", PyVal.str t1), ("expires_in", PyVal.int n1)])).fst
        = AuthOutcome.ok (PyVal.str t1, PyVal.int n1) ∧
      (oktaGetAccessToken osc
          (oktaGetAccessToken osc st (Except.ok ()) issued1 jd1 Option.none
            (Option.some [("access_token", PyVal.str t1), ("expires_in", PyVal.int n1)])).snd
          (Except.ok ()) issued2 jd2 Option.none
          (Option.some [("access_token", PyVal.str t2), ("expires_in", PyVal.int n2)])).fst
        = AuthOutcome.ok (PyVal.str t2, PyVal.int n2)) ∧
    ((azureGetAccessToken
          [("client_id", v1), ("secret_key", v2), ("authority", v3), ("scopes", v4)]
          st [("access_token", PyVal.str t1), ("expires_in", PyVal.int n1)]).fst
        = AuthOutcome.ok (PyVal.str t1, PyVal.int n1) ∧
      (azureGetAccessToken
          [("client_id", v1), ("secret_key", v2), ("authority", v3), ("scopes", v4)]
          (azureGetAccessToken
            [("client_id", v1), ("secret_key", v2), ("authority", v3), ("scopes", v4)]
            st [("access_token", PyVal.str t1), ("expires_in", PyVal.int n1)]).snd
          [("access_token", PyVal.str t2), ("expires_in", PyVal.int n2)]).fst
        = AuthOutcome.ok (PyVal.str t2, PyVal.int n2)) :=
  ⟨⟨rfl, rfl⟩, ⟨rfl, rfl⟩, ⟨rfl, rfl⟩, ⟨rfl, rfl⟩, ⟨rfl, rfl⟩⟩

/-- C9: when the Okta token exchange completes without a transport error but
the JSON body lacks both access_token and expires_in, get_access_token raises
nothing and silently returns the pair (None, None). -/
theorem okta_missing_fields_silent (osc : OktaSSOConfig) (st : ProviderState)
    (issued : Int) (jid : String) (j : List (String × PyVal))
    (h1 : j.lookup "access_token" = Option.none)
    (h2 : j.lookup "expires_in" = Option.none) :
    (oktaGetAccessToken osc st (Except.ok ()) issued jid Option.none (Option.some j)).fst
        = AuthOutcome.ok (PyVal.none, PyVal.none) := by
  simp [oktaGetAccessToken, oktaAuthToken, wrapGetAccessToken, dictGet, h1, h2]

/-- Witness for okta_missing_fields_silent: an empty JSON response body makes
the Okta provider return the pair (None, None) without error. -/
theorem okta_missing_fields_silent_witness :
    ([] : List (String × PyVal)).lookup "access_token" = Option.none ∧
    ([] : List (String × PyVal)).lookup "expires_in" = Option.none ∧
    (oktaGetAccessToken
        { clientId := "c", orgURL := "o", privateKey := "p", scopes := [] }
        initState (Except.ok ()) 0 "jid" Option.none (Option.some [])).fst
      = AuthOutcome.ok (PyVal.none, PyVal.none) :=
  ⟨rfl, rfl,
   okta_missing_fields_silent
     { clientId := "c", orgURL := "o", privateKey := "p", scopes := [] }
     initState 0 "jid" [] rfl rfl⟩
